import Mathlib

/-!
Verification of the device/surface negotiation logic of the vulkano-udemy
tutorial renderer (src/vulkan_renderer.rs, src/utilities.rs, src/main.rs,
src/error_utils.rs).

The Rust code is shallowly embedded: the vulkano enums and capability
structures are modelled with only the variants and fields the repository
touches, Rust `Option`/`Result` become Lean `Option`/`Except`, a Rust
panic (indexing an empty vector, arithmetic overflow in a debug build)
becomes `Option.none`, and u32 arithmetic is `Nat` arithmetic reduced
modulo 2 ^ 32 where it can wrap.
-/

namespace Vk

/-- Image formats (vulkano `Format`): the repository compares against
`R8G8B8A8Unorm` and `B8G8R8A8Unorm` only; a few further variants stand in
for the rest of the enum. -/
inductive Format where
  | R8G8B8A8Unorm
  | B8G8R8A8Unorm
  | B8G8R8A8Srgb
  | R16G16Sfloat
  | R5G6B5UnormPack16
deriving DecidableEq

/-- Color spaces (vulkano `ColorSpace`): the repository compares against
`SrgbNonLinear` only. -/
inductive ColorSpace where
  | SrgbNonLinear
  | DisplayP3NonLinear
  | ExtendedSrgbLinear
  | PassThrough
deriving DecidableEq

/-- Presentation modes (vulkano `PresentMode`). -/
inductive PresentMode where
  | Immediate
  | Mailbox
  | Fifo
  | Relaxed
deriving DecidableEq

/-- vulkano `SupportedPresentModes`: one flag per presentation mode the
surface supports. -/
structure SupportedPresentModes where
  immediate : Bool
  mailbox : Bool
  fifo : Bool
  relaxed : Bool
  shared_demand : Bool
  shared_continuous : Bool
deriving DecidableEq

/-- vulkano `SupportedPresentModes::supports`: membership of a mode in the
supported set. -/
def SupportedPresentModes.supports (self : SupportedPresentModes) : PresentMode → Bool
  | PresentMode.Immediate => self.immediate
  | PresentMode.Mailbox => self.mailbox
  | PresentMode.Fifo => self.fifo
  | PresentMode.Relaxed => self.relaxed

/-- A queue family (vulkano `QueueFamily`): its id and whether it supports
graphics operations. -/
structure QueueFamily where
  id : Nat
  supports_graphics : Bool
deriving DecidableEq

/-- The surface, reduced to what the repository consults per queue family:
`Surface::is_supported(q)` returns `Result<bool, CapabilitiesError>`,
modelled as `Option Bool` (`none` = the capability query failed). -/
structure Surface where
  is_supported : QueueFamily → Option Bool

/-- vulkano `DeviceExtensions`, restricted to a representative set of its
boolean fields; the repository only ever sets `khr_swapchain`. -/
structure DeviceExtensions where
  khr_swapchain : Bool
  khr_display_swapchain : Bool
  khr_sampler_mirror_clamp_to_edge : Bool
  khr_maintenance1 : Bool
  khr_get_memory_requirements2 : Bool
  khr_dedicated_allocation : Bool
deriving DecidableEq

/-- `DeviceExtensions::none()`: every flag off. -/
def DeviceExtensions.noExtensions : DeviceExtensions :=
  ⟨false, false, false, false, false, false⟩

/-- `DeviceExtensions::intersection`: field-wise conjunction. -/
def DeviceExtensions.intersection (self other : DeviceExtensions) : DeviceExtensions :=
  ⟨self.khr_swapchain && other.khr_swapchain,
   self.khr_display_swapchain && other.khr_display_swapchain,
   self.khr_sampler_mirror_clamp_to_edge && other.khr_sampler_mirror_clamp_to_edge,
   self.khr_maintenance1 && other.khr_maintenance1,
   self.khr_get_memory_requirements2 && other.khr_get_memory_requirements2,
   self.khr_dedicated_allocation && other.khr_dedicated_allocation⟩

/-- The spec-side notion "a is a superset of b": every extension required
by `b` is present in `a`. -/
def DeviceExtensions.superset_of (a b : DeviceExtensions) : Prop :=
  (b.khr_swapchain = true → a.khr_swapchain = true) ∧
  (b.khr_display_swapchain = true → a.khr_display_swapchain = true) ∧
  (b.khr_sampler_mirror_clamp_to_edge = true → a.khr_sampler_mirror_clamp_to_edge = true) ∧
  (b.khr_maintenance1 = true → a.khr_maintenance1 = true) ∧
  (b.khr_get_memory_requirements2 = true → a.khr_get_memory_requirements2 = true) ∧
  (b.khr_dedicated_allocation = true → a.khr_dedicated_allocation = true)

/-- A physical device (vulkano `PhysicalDevice`), reduced to what the
repository consults: its queue families in enumeration order and the
device extensions it supports (`DeviceExtensions::supported_by_device`). -/
structure PhysicalDevice where
  queue_families : List QueueFamily
  supported_extensions : DeviceExtensions

/-- `DeviceExtensions::supported_by_device`. -/
def DeviceExtensions.supported_by_device (device : PhysicalDevice) : DeviceExtensions :=
  device.supported_extensions

/-- utilities.rs `QueueFamilyIndices`. -/
structure QueueFamilyIndices where
  graphics_family : Option QueueFamily
  presentation_family : Option QueueFamily
deriving DecidableEq

/-- utilities.rs `QueueFamilyIndices::new`. -/
def QueueFamilyIndices.new : QueueFamilyIndices :=
  { graphics_family := none, presentation_family := none }

/-- utilities.rs `QueueFamilyIndices::is_valid`. -/
def QueueFamilyIndices.is_valid (self : QueueFamilyIndices) : Bool :=
  self.graphics_family.isSome && self.presentation_family.isSome

/-- utilities.rs `QueueFamilyIndices::into_vec`: empty when invalid;
otherwise the graphics family, plus the presentation family when no
already-listed family has its id. -/
def QueueFamilyIndices.into_vec (self : QueueFamilyIndices) : List QueueFamily :=
  match self.graphics_family, self.presentation_family with
  | some g, some p =>
      if (([g].find? (fun f => f.id == p.id)).isNone) then [g, p] else [g]
  | _, _ => []

namespace VulkanRenderer

/-- vulkan_renderer.rs `choose_best_surface_format`: first entry whose
format is `R8G8B8A8Unorm` or `B8G8R8A8Unorm` with color space
`SrgbNonLinear`; otherwise element 0 of the list.  Indexing element 0 of
an empty vector panics in Rust, modelled by `Option.none` via `get?`. -/
def choose_best_surface_format (avalilable_formats : List (Format × ColorSpace)) :
    Option (Format × ColorSpace) :=
  let best_format := avalilable_formats.find? (fun f =>
    (f.1 == Format.R8G8B8A8Unorm || f.1 == Format.B8G8R8A8Unorm)
      && f.2 == ColorSpace.SrgbNonLinear)
  match best_format with
  | some format => some format
  | none => avalilable_formats.get? 0

/-- The predicate inside `choose_best_surface_format`, named so theorems
can speak about it. -/
def is_best_surface_format (f : Format × ColorSpace) : Bool :=
  (f.1 == Format.R8G8B8A8Unorm || f.1 == Format.B8G8R8A8Unorm)
    && f.2 == ColorSpace.SrgbNonLinear

/-- vulkan_renderer.rs `choose_best_presentation_mode`. -/
def choose_best_presentation_mode (supported_modes : SupportedPresentModes) : PresentMode :=
  if supported_modes.mailbox then PresentMode.Mailbox else PresentMode.Fifo

/-- vulkan_renderer.rs `get_required_device_extensions`. -/
def get_required_device_extensions : DeviceExtensions :=
  { DeviceExtensions.noExtensions with khr_swapchain := true }

/-- vulkan_renderer.rs `check_device_extension_support`. -/
def check_device_extension_support (device : PhysicalDevice)
    (extensions : DeviceExtensions) : Bool :=
  let supported_extensions := DeviceExtensions.supported_by_device device
  (supported_extensions.intersection extensions) == extensions

/-- vulkan_renderer.rs `get_queue_families`: starts from
`QueueFamilyIndices::new` and fills each field from the first matching
queue family, independently. -/
def get_queue_families (physical_device : PhysicalDevice) (surface : Surface) :
    QueueFamilyIndices :=
  let queue_family_indices := QueueFamilyIndices.new
  let queue_family_indices :=
    match physical_device.queue_families.find? (fun q => q.supports_graphics) with
    | some family => { queue_family_indices with graphics_family := some family }
    | none => queue_family_indices
  let queue_family_indices :=
    match physical_device.queue_families.find?
        (fun q => (surface.is_supported q).getD false) with
    | some family => { queue_family_indices with presentation_family := some family }
    | none => queue_family_indices
  queue_family_indices

/-- vulkan_renderer.rs `check_device_suitable`. -/
def check_device_suitable (physical_device : PhysicalDevice) (surface : Surface) : Bool :=
  let queue_families := get_queue_families physical_device surface
  let extensions := get_required_device_extensions
  queue_families.is_valid && check_device_extension_support physical_device extensions

end VulkanRenderer

/-- vulkano `InstanceCreationError` (external error type, representative
variants). -/
inductive InstanceCreationError where
  | LoadingError
  | OomError
  | InitializationFailed
  | LayerNotPresent
  | ExtensionNotPresent
  | IncompatibleDriver
deriving DecidableEq

/-- vulkano `DeviceCreationError` (external error type, representative
variants). -/
inductive DeviceCreationError where
  | OutOfHostMemory
  | OutOfDeviceMemory
  | TooManyObjects
  | DeviceLost
  | FeatureNotPresent
  | ExtensionNotPresent
deriving DecidableEq

/-- vulkano_win `CreationError` (external error type, representative
variants). -/
inductive CreationError where
  | SurfaceCreationError
  | WindowCreationError
deriving DecidableEq

/-- vulkano `CapabilitiesError` (external error type, representative
variants). -/
inductive CapabilitiesError where
  | OomError
  | SurfaceLost
deriving DecidableEq

/-- vulkano `SwapchainCreationError` (external error type, representative
variants). -/
inductive SwapchainCreationError where
  | OomError
  | DeviceLost
  | SurfaceLost
  | UnsupportedMinImagesCount
  | UnsupportedFormat
deriving DecidableEq

/-- vulkano `OomError` (external error type). -/
inductive OomError where
  | OutOfHostMemory
  | OutOfDeviceMemory
deriving DecidableEq

/-- error_utils.rs `EngineError`: the closed set of error kinds every
fallible step of the renderer returns. -/
inductive EngineError where
  | VulkanInstanceCreationError (error : InstanceCreationError)
  | VulkanDeviceCreationError (error : DeviceCreationError)
  | VulkanCreationError (error : CreationError)
  | VulkanValidationError (message : String)
  | VulkanCapabilitiesError (error : CapabilitiesError)
  | VulkanSwapchainCreationError (error : SwapchainCreationError)
  | VulkanOomError (error : OomError)
deriving DecidableEq

/-- error_utils.rs `Display for EngineError` delegates to the derived
`Debug`; modelled with a fixed rendering per variant (inner payloads are
rendered by constructor tag, string payloads verbatim without escapes). -/
def EngineError.display : EngineError → String
  | EngineError.VulkanInstanceCreationError _ => "VulkanInstanceCreationError(..)"
  | EngineError.VulkanDeviceCreationError _ => "VulkanDeviceCreationError(..)"
  | EngineError.VulkanCreationError _ => "VulkanCreationError(..)"
  | EngineError.VulkanValidationError message =>
      "VulkanValidationError(\x22" ++ message ++ "\x22)"
  | EngineError.VulkanCapabilitiesError _ => "VulkanCapabilitiesError(..)"
  | EngineError.VulkanSwapchainCreationError _ => "VulkanSwapchainCreationError(..)"
  | EngineError.VulkanOomError _ => "VulkanOomError(..)"

namespace VulkanRenderer

/-- vulkan_renderer.rs `get_physical_device`: `PhysicalDevice::enumerate`
is modelled by the enumeration-order list of devices; the `while let`
loop returns the first suitable device, else the validation error. -/
def get_physical_device (physical_device_list : List PhysicalDevice)
    (surface : Surface) : Except EngineError PhysicalDevice :=
  match physical_device_list with
  | [] => Except.error (EngineError.VulkanValidationError
      "No valid physical device available")
  | device :: rest =>
      if check_device_suitable device surface then Except.ok device
      else get_physical_device rest surface

end VulkanRenderer

/-- vulkano surface `Capabilities`, restricted to the fields the
swap-chain builder consults for the verified claims. -/
structure Capabilities where
  min_image_count : Nat
  max_image_count : Option Nat
  supported_formats : List (Format × ColorSpace)
  present_modes : SupportedPresentModes

namespace VulkanRenderer

/-- vulkan_renderer.rs `create_swapchain`, image-count computation (lines
300-303): `image_count: u32 = min_image_count + 1`, then clamped by
`max_image_count` when present.  The u32 addition is taken modulo 2 ^ 32
(in a release build it wraps; in a debug build `u32::MAX + 1` panics
instead of producing any count). -/
def create_swapchain_image_count (surface_capabilities : Capabilities) : Nat :=
  let image_count := (surface_capabilities.min_image_count + 1) % 2 ^ 32
  match surface_capabilities.max_image_count with
  | some max_image_count => Nat.min image_count max_image_count
  | none => image_count

end VulkanRenderer

/-- The winit events main.rs reacts to: the close request, and everything
else. -/
inductive WinEvent where
  | closeRequested
  | other
deriving DecidableEq

/-- winit `ControlFlow`, restricted to the variants main.rs touches. -/
inductive ControlFlow where
  | poll
  | wait
  | exitLoop
deriving DecidableEq

/-- The event-loop closure in main.rs: on `CloseRequested` it sets the
control flow to exit; every other event leaves it unchanged. -/
def main_event_handler (event : WinEvent) (control_flow : ControlFlow) : ControlFlow :=
  match event with
  | WinEvent.closeRequested => ControlFlow.exitLoop
  | WinEvent.other => control_flow

/-- What the process does: the exit code and the lines written to
standard error. -/
structure ProcessOutcome where
  exit_code : Nat
  stderr : List String
deriving DecidableEq

/-- main.rs `main`, as a function of the outcomes of its two fallible
steps (`create_instance` and `VulkanRenderer::init`): each `Err` is
printed to standard error and the process exits with code 1; when both
succeed the event loop runs until the window closes, after which winit
terminates the process with exit code 0 (no line on standard error). -/
def mainOutcome (create_instance_result : Except EngineError Unit)
    (init_result : Except EngineError Unit) : ProcessOutcome :=
  match create_instance_result with
  | Except.error err =>
      { exit_code := 1,
        stderr := ["Failed to create instance: " ++ err.display] }
  | Except.ok _ =>
      match init_result with
      | Except.error err =>
          { exit_code := 1,
            stderr := ["Failed to create vulkano renderer: " ++ err.display] }
      | Except.ok _ => { exit_code := 0, stderr := [] }

/-- The outcomes of the fallible steps of `VulkanRenderer::init`, in call
order (the debug-callback setup between instance and surface is
infallible). -/
structure InitSteps where
  instance_step : Except EngineError Unit
  surface_step : Except EngineError Unit
  physical_device_step : Except EngineError Unit
  logical_device_step : Except EngineError Unit
  swapchain_step : Except EngineError Unit
  pipeline_step : Except EngineError Unit

namespace VulkanRenderer

/-- vulkan_renderer.rs `VulkanRenderer::init`, as a function of the
outcomes of its fallible steps: each `?` returns the step's error
unchanged; otherwise the next step runs. -/
def init (steps : InitSteps) : Except EngineError Unit :=
  match steps.instance_step with
  | Except.error e => Except.error e
  | Except.ok _ =>
    match steps.surface_step with
    | Except.error e => Except.error e
    | Except.ok _ =>
      match steps.physical_device_step with
      | Except.error e => Except.error e
      | Except.ok _ =>
        match steps.logical_device_step with
        | Except.error e => Except.error e
        | Except.ok _ =>
          match steps.swapchain_step with
          | Except.error e => Except.error e
          | Except.ok _ => steps.pipeline_step

end VulkanRenderer

/-- Concrete support set with every present mode off (used for concrete
evaluations). -/
def pm_none : SupportedPresentModes := ⟨false, false, false, false, false, false⟩

/-- A surface that reports presentation support for every queue family. -/
def s_yes : Surface := ⟨fun _ => some true⟩

/-- A surface that reports no presentation support for any queue family. -/
def s_no : Surface := ⟨fun _ => some false⟩

/-- A device with one graphics-capable family and the swap-chain extension. -/
def pd_good : PhysicalDevice := ⟨[⟨0, true⟩], ⟨true, false, false, false, false, false⟩⟩

/-- A device with no queue families and no extensions. -/
def pd_bad : PhysicalDevice := ⟨[], DeviceExtensions.noExtensions⟩

/-- A device whose first family lacks graphics and whose second has it. -/
def pd_two : PhysicalDevice := ⟨[⟨0, false⟩, ⟨1, true⟩], DeviceExtensions.noExtensions⟩

/-- Capabilities with one supported format and only fifo supported. -/
def caps_fifo : Capabilities :=
  ⟨1, none, [(Format.R16G16Sfloat, ColorSpace.PassThrough)], ⟨false, false, true, false, false, false⟩⟩

/-- Capabilities whose min_image_count is u32::MAX (max unbounded). -/
def caps_overflow : Capabilities := ⟨4294967295, none, [], pm_none⟩

/- ------------------------------------------------------------------ -/
/- Helper lemmas (shared across claims).                               -/
/- ------------------------------------------------------------------ -/

theorem choose_best_surface_format_eq (l : List (Format × ColorSpace)) :
    VulkanRenderer.choose_best_surface_format l =
      match l.find? VulkanRenderer.is_best_surface_format with
      | some format => some format
      | none => l.get? 0 := rfl

theorem choose_best_surface_format_of_find {l : List (Format × ColorSpace)}
    {x : Format × ColorSpace}
    (h : l.find? VulkanRenderer.is_best_surface_format = some x) :
    VulkanRenderer.choose_best_surface_format l = some x := by
  rw [choose_best_surface_format_eq, h]

theorem choose_best_surface_format_of_none {l : List (Format × ColorSpace)}
    (h : l.find? VulkanRenderer.is_best_surface_format = none) :
    VulkanRenderer.choose_best_surface_format l = l.get? 0 := by
  rw [choose_best_surface_format_eq, h]

theorem get_queue_families_graphics (pd : PhysicalDevice) (s : Surface) :
    (VulkanRenderer.get_queue_families pd s).graphics_family =
      pd.queue_families.find? (fun q => q.supports_graphics) := by
  simp only [VulkanRenderer.get_queue_families, QueueFamilyIndices.new]
  cases h1 : pd.queue_families.find? (fun q => q.supports_graphics) <;>
    cases h2 : pd.queue_families.find? (fun q => (s.is_supported q).getD false) <;>
      simp [h1, h2]

theorem get_queue_families_presentation (pd : PhysicalDevice) (s : Surface) :
    (VulkanRenderer.get_queue_families pd s).presentation_family =
      pd.queue_families.find? (fun q => (s.is_supported q).getD false) := by
  simp only [VulkanRenderer.get_queue_families, QueueFamilyIndices.new]
  cases h1 : pd.queue_families.find? (fun q => q.supports_graphics) <;>
    cases h2 : pd.queue_families.find? (fun q => (s.is_supported q).getD false) <;>
      simp [h1, h2]

theorem superset_of_required_iff (a : DeviceExtensions) :
    a.superset_of VulkanRenderer.get_required_device_extensions ↔
      a.khr_swapchain = true := by
  simp [DeviceExtensions.superset_of, VulkanRenderer.get_required_device_extensions,
    DeviceExtensions.noExtensions]

theorem check_device_extension_support_required (device : PhysicalDevice) :
    VulkanRenderer.check_device_extension_support device
        VulkanRenderer.get_required_device_extensions =
      device.supported_extensions.khr_swapchain := by
  rcases device with ⟨qf, ⟨a, b, c, d, e, f⟩⟩
  cases a <;> cases b <;> cases c <;> cases d <;> cases e <;> cases f <;> rfl

/- ------------------------------------------------------------------ -/
/- Claim theorems.                                                     -/
/- ------------------------------------------------------------------ -/

/-- C1: for every non-empty list of (format, color-space) pairs,
`choose_best_surface_format` returns the first entry that is 8-bit
RGBA/BGRA with sRGB non-linear color space when one exists, and the first
element of the list otherwise. -/
theorem choose_best_surface_format_spec (l : List (Format × ColorSpace)) (h : l ≠ []) :
    (∀ l₁ x l₂, l = l₁ ++ x :: l₂ →
      VulkanRenderer.is_best_surface_format x = true →
      (∀ y ∈ l₁, VulkanRenderer.is_best_surface_format y = false) →
      VulkanRenderer.choose_best_surface_format l = some x) ∧
    ((∀ x ∈ l, VulkanRenderer.is_best_surface_format x = false) →
      VulkanRenderer.choose_best_surface_format l = some (l.head h)) := by
  constructor
  · intro l₁ x l₂ heq hx hl₁
    apply choose_best_surface_format_of_find
    exact List.find?_eq_some.mpr ⟨hx, l₁, l₂, heq, fun a ha => by simp [hl₁ a ha]⟩
  · intro hnone
    have hf : l.find? VulkanRenderer.is_best_surface_format = none :=
      List.find?_eq_none.mpr (fun x hx => by simp [hnone x hx])
    rw [choose_best_surface_format_of_none hf]
    cases l with
    | nil => exact absurd rfl h
    | cons a t => rfl

/-- C1 witness: the chooser picks the BGRA8/sRGB entry when present (the
spec's worked example) and falls back to the first element otherwise. -/
theorem choose_best_surface_format_spec_witness :
    VulkanRenderer.choose_best_surface_format
        [(Format.B8G8R8A8Unorm, ColorSpace.SrgbNonLinear),
         (Format.R16G16Sfloat, ColorSpace.SrgbNonLinear)] =
      some (Format.B8G8R8A8Unorm, ColorSpace.SrgbNonLinear) ∧
    VulkanRenderer.choose_best_surface_format
        [(Format.R16G16Sfloat, ColorSpace.SrgbNonLinear)] =
      some (Format.R16G16Sfloat, ColorSpace.SrgbNonLinear) := by
  constructor
  · exact (choose_best_surface_format_spec _ (by decide)).1 [] _ _ rfl (by decide)
      (by intro y hy; cases hy)
  · exact (choose_best_surface_format_spec
      [(Format.R16G16Sfloat, ColorSpace.SrgbNonLinear)] (by decide)).2 (by decide)

/-- C2: `choose_best_presentation_mode` returns Mailbox exactly when the
support set includes mailbox, and Fifo otherwise. -/
theorem choose_best_presentation_mode_spec (s : SupportedPresentModes) :
    (s.supports PresentMode.Mailbox = true →
      VulkanRenderer.choose_best_presentation_mode s = PresentMode.Mailbox) ∧
    (s.supports PresentMode.Mailbox = false →
      VulkanRenderer.choose_best_presentation_mode s = PresentMode.Fifo) := by
  constructor <;> intro h <;>
    simp only [SupportedPresentModes.supports] at h <;>
      simp [VulkanRenderer.choose_best_presentation_mode, h]

/-- C2 witness: with mailbox supported the chooser returns Mailbox; with
only fifo supported it returns Fifo (the spec's worked example). -/
theorem choose_best_presentation_mode_spec_witness :
    VulkanRenderer.choose_best_presentation_mode ⟨false, true, true, false, false, false⟩ =
      PresentMode.Mailbox ∧
    VulkanRenderer.choose_best_presentation_mode ⟨false, false, true, false, false, false⟩ =
      PresentMode.Fifo :=
  ⟨(choose_best_presentation_mode_spec _).1 rfl,
   (choose_best_presentation_mode_spec _).2 rfl⟩

/-- C10: `choose_best_surface_format` is partial: on the empty format
list it panics (modelled `none`); under the precondition that the list is
non-empty it always produces a value. -/
theorem choose_best_surface_format_empty_panics :
    VulkanRenderer.choose_best_surface_format [] = none ∧
    ∀ l : List (Format × ColorSpace), l ≠ [] →
      (VulkanRenderer.choose_best_surface_format l).isSome = true := by
  constructor
  · rfl
  · intro l h
    rw [choose_best_surface_format_eq]
    cases hf : l.find? VulkanRenderer.is_best_surface_format with
    | some f => rfl
    | none =>
      cases l with
      | nil => exact absurd rfl h
      | cons a t => rfl

/-- C10 witness: the empty list yields no result; a singleton list does. -/
theorem choose_best_surface_format_empty_panics_witness :
    VulkanRenderer.choose_best_surface_format [] = none ∧
    (VulkanRenderer.choose_best_surface_format
      [(Format.B8G8R8A8Srgb, ColorSpace.PassThrough)]).isSome = true :=
  ⟨choose_best_surface_format_empty_panics.1,
   choose_best_surface_format_empty_panics.2 _ (by decide)⟩

/-- C5: `get_queue_families` puts into `graphics_family` the first queue
family in enumeration order that supports graphics, and into
`presentation_family` the first that supports presentation to the surface
(possibly a different one); the selection `is_valid` exactly when both
fields are populated. -/
theorem get_queue_families_spec (pd : PhysicalDevice) (s : Surface) :
    (∀ f, (VulkanRenderer.get_queue_families pd s).graphics_family = some f →
      f.supports_graphics = true ∧
      ∃ l₁ l₂, pd.queue_families = l₁ ++ f :: l₂ ∧
        ∀ q ∈ l₁, q.supports_graphics = false) ∧
    ((VulkanRenderer.get_queue_families pd s).graphics_family = none →
      ∀ q ∈ pd.queue_families, q.supports_graphics = false) ∧
    (∀ f, (VulkanRenderer.get_queue_families pd s).presentation_family = some f →
      (s.is_supported f).getD false = true ∧
      ∃ l₁ l₂, pd.queue_families = l₁ ++ f :: l₂ ∧
        ∀ q ∈ l₁, (s.is_supported q).getD false = false) ∧
    ((VulkanRenderer.get_queue_families pd s).presentation_family = none →
      ∀ q ∈ pd.queue_families, (s.is_supported q).getD false = false) ∧
    ((VulkanRenderer.get_queue_families pd s).is_valid = true ↔
      (VulkanRenderer.get_queue_families pd s).graphics_family.isSome = true ∧
      (VulkanRenderer.get_queue_families pd s).presentation_family.isSome = true) := by
  refine ⟨?_, ?_, ?_, ?_, ?_⟩
  · intro f hf
    rw [get_queue_families_graphics] at hf
    obtain ⟨hp, l₁, l₂, heq, hall⟩ := List.find?_eq_some.mp hf
    exact ⟨hp, l₁, l₂, heq, fun q hq => by simpa using hall q hq⟩
  · intro hn q hq
    rw [get_queue_families_graphics] at hn
    have := List.find?_eq_none.mp hn q hq
    simpa using this
  · intro f hf
    rw [get_queue_families_presentation] at hf
    obtain ⟨hp, l₁, l₂, heq, hall⟩ := List.find?_eq_some.mp hf
    exact ⟨hp, l₁, l₂, heq, fun q hq => by simpa using hall q hq⟩
  · intro hn q hq
    rw [get_queue_families_presentation] at hn
    have := List.find?_eq_none.mp hn q hq
    simpa using this
  · simp [QueueFamilyIndices.is_valid]

/-- C5 witness: on a device whose first family lacks graphics and whose
second has it, the resolver returns the second family as the first
graphics-capable one in enumeration order. -/
theorem get_queue_families_spec_witness :
    (⟨1, true⟩ : QueueFamily).supports_graphics = true ∧
    ∃ l₁ l₂, pd_two.queue_families = l₁ ++ (⟨1, true⟩ : QueueFamily) :: l₂ ∧
      ∀ q ∈ l₁, q.supports_graphics = false :=
  (get_queue_families_spec pd_two s_yes).1 ⟨1, true⟩ rfl

/-- C7 counterexample: on a device with one graphics-capable family and a
surface supporting no family, `get_queue_families` populates
`graphics_family` but leaves `presentation_family` empty, so the two
fields are neither both Some nor both None. -/
theorem queue_family_fields_not_together_cex :
    ¬ (((VulkanRenderer.get_queue_families pd_good s_no).graphics_family.isSome = true ∧
        (VulkanRenderer.get_queue_families pd_good s_no).presentation_family.isSome = true) ∨
       ((VulkanRenderer.get_queue_families pd_good s_no).graphics_family = none ∧
        (VulkanRenderer.get_queue_families pd_good s_no).presentation_family = none)) := by
  decide

/-- C7 (amended): `QueueFamilyIndices::new` produces both fields None;
`get_queue_families` populates `graphics_family` exactly when some family
supports graphics and `presentation_family` exactly when some family
supports presentation, independently of each other (one may be Some while
the other is None); the selection is valid exactly when both are
populated. -/
theorem queue_family_fields_spec :
    (QueueFamilyIndices.new.graphics_family = none ∧
     QueueFamilyIndices.new.presentation_family = none) ∧
    ∀ pd s,
      ((VulkanRenderer.get_queue_families pd s).graphics_family.isSome = true ↔
        ∃ q, q ∈ pd.queue_families ∧ q.supports_graphics = true) ∧
      ((VulkanRenderer.get_queue_families pd s).presentation_family.isSome = true ↔
        ∃ q, q ∈ pd.queue_families ∧ (s.is_supported q).getD false = true) ∧
      ((VulkanRenderer.get_queue_families pd s).is_valid = true ↔
        (VulkanRenderer.get_queue_families pd s).graphics_family.isSome = true ∧
        (VulkanRenderer.get_queue_families pd s).presentation_family.isSome = true) := by
  refine ⟨⟨rfl, rfl⟩, fun pd s => ⟨?_, ?_, ?_⟩⟩
  · rw [get_queue_families_graphics]
    simp
  · rw [get_queue_families_presentation]
    simp
  · simp [QueueFamilyIndices.is_valid]

/-- C8: `into_vec` produces at most two queue families with pairwise
distinct ids (a single one when graphics and presentation coincide by
id), and produces the empty list exactly when the selection is invalid. -/
theorem into_vec_spec (qfi : QueueFamilyIndices) :
    qfi.into_vec.length ≤ 2 ∧
    List.Pairwise (fun a b => a.id ≠ b.id) qfi.into_vec ∧
    (∀ g p, qfi.graphics_family = some g → qfi.presentation_family = some p →
      (g.id = p.id → qfi.into_vec = [g]) ∧ (g.id ≠ p.id → qfi.into_vec = [g, p])) ∧
    (qfi.into_vec = [] ↔ qfi.is_valid = false) := by
  rcases qfi with ⟨og, op⟩
  cases og with
  | none =>
    cases op <;>
      simp [QueueFamilyIndices.into_vec, QueueFamilyIndices.is_valid]
  | some g =>
    cases op with
    | none => simp [QueueFamilyIndices.into_vec, QueueFamilyIndices.is_valid]
    | some p =>
      by_cases hid : g.id = p.id <;>
        simp [QueueFamilyIndices.into_vec, QueueFamilyIndices.is_valid,
          List.find?_singleton, hid]

/-- C8 witness: distinct family ids give the two-element list; equal ids
collapse to the graphics family alone. -/
theorem into_vec_spec_witness :
    (QueueFamilyIndices.mk (some ⟨0, true⟩) (some ⟨1, false⟩)).into_vec =
      [⟨0, true⟩, ⟨1, false⟩] ∧
    (QueueFamilyIndices.mk (some ⟨0, true⟩) (some ⟨0, false⟩)).into_vec = [⟨0, true⟩] :=
  ⟨((into_vec_spec _).2.2.1 ⟨0, true⟩ ⟨1, false⟩ rfl rfl).2 (by decide),
   ((into_vec_spec _).2.2.1 ⟨0, true⟩ ⟨0, false⟩ rfl rfl).1 rfl⟩

theorem get_physical_device_first_aux (s : Surface) (d : PhysicalDevice)
    (l₁ l₂ : List PhysicalDevice)
    (hd : VulkanRenderer.check_device_suitable d s = true)
    (h₁ : ∀ x ∈ l₁, VulkanRenderer.check_device_suitable x s = false) :
    VulkanRenderer.get_physical_device (l₁ ++ d :: l₂) s = Except.ok d := by
  induction l₁ with
  | nil => simp [VulkanRenderer.get_physical_device, hd]
  | cons a t ih =>
    have ha : VulkanRenderer.check_device_suitable a s = false :=
      h₁ a (List.mem_cons_self a t)
    simp only [List.cons_append, VulkanRenderer.get_physical_device, ha,
      Bool.false_eq_true, if_false]
    exact ih (fun x hx => h₁ x (List.mem_cons_of_mem a hx))

/-- C3: `get_physical_device` returns the first enumerated device that is
suitable — valid queue-family resolution and supported extensions a
superset of the required set (khr_swapchain) — and the "no suitable
device" validation error when none is. -/
theorem get_physical_device_spec (devices : List PhysicalDevice) (s : Surface) :
    (∀ l₁ d l₂, devices = l₁ ++ d :: l₂ →
      VulkanRenderer.check_device_suitable d s = true →
      (∀ d2 ∈ l₁, VulkanRenderer.check_device_suitable d2 s = false) →
      VulkanRenderer.get_physical_device devices s = Except.ok d) ∧
    ((∀ d ∈ devices, VulkanRenderer.check_device_suitable d s = false) →
      VulkanRenderer.get_physical_device devices s =
        Except.error (EngineError.VulkanValidationError
          "No valid physical device available")) ∧
    (∀ d, VulkanRenderer.check_device_suitable d s = true ↔
      ((VulkanRenderer.get_queue_families d s).is_valid = true ∧
       DeviceExtensions.superset_of (DeviceExtensions.supported_by_device d)
         VulkanRenderer.get_required_device_extensions)) := by
  refine ⟨?_, ?_, ?_⟩
  · intro l₁ d l₂ heq hd hl₁
    subst heq
    exact get_physical_device_first_aux s d l₁ l₂ hd hl₁
  · intro hall
    induction devices with
    | nil => rfl
    | cons a t ih =>
      have ha : VulkanRenderer.check_device_suitable a s = false :=
        hall a (List.mem_cons_self a t)
      simp only [VulkanRenderer.get_physical_device, ha, Bool.false_eq_true, if_false]
      exact ih (fun x hx => hall x (List.mem_cons_of_mem a hx))
  · intro d
    rw [superset_of_required_iff]
    simp only [VulkanRenderer.check_device_suitable,
      check_device_extension_support_required, Bool.and_eq_true,
      DeviceExtensions.supported_by_device]

/-- C3 witness: with an unsuitable device enumerated first, the selector
returns the second (suitable) device; with only the unsuitable one it
fails with the "no suitable device" validation error. -/
theorem get_physical_device_spec_witness :
    VulkanRenderer.get_physical_device [pd_bad, pd_good] s_yes = Except.ok pd_good ∧
    VulkanRenderer.get_physical_device [pd_bad] s_yes =
      Except.error (EngineError.VulkanValidationError
        "No valid physical device available") :=
  ⟨(get_physical_device_spec [pd_bad, pd_good] s_yes).1 [pd_bad] pd_good [] rfl
      (by decide) (by decide),
   (get_physical_device_spec [pd_bad] s_yes).2.1 (by decide)⟩

/-- C4 counterexample: at `min_image_count = u32::MAX` with no upper
bound, the u32 computation wraps (debug builds panic) and the resulting
image count is not `min_image_count + 1`. -/
theorem create_swapchain_image_count_overflow_cex :
    caps_overflow.max_image_count = none ∧
    VulkanRenderer.create_swapchain_image_count caps_overflow ≠
      caps_overflow.min_image_count + 1 := by
  constructor
  · rfl
  · decide

/-- C4 (amended): for every surface-capabilities value whose
`min_image_count + 1` does not overflow u32, the swap-chain image count
equals `min_image_count + 1` when `max_image_count` is absent, and the
minimum of `min_image_count + 1` and `max_image_count` when present. -/
theorem create_swapchain_image_count_spec (caps : Capabilities)
    (h : caps.min_image_count + 1 < 2 ^ 32) :
    (caps.max_image_count = none →
      VulkanRenderer.create_swapchain_image_count caps = caps.min_image_count + 1) ∧
    (∀ m, caps.max_image_count = some m →
      VulkanRenderer.create_swapchain_image_count caps =
        Nat.min (caps.min_image_count + 1) m) := by
  constructor
  · intro hmax
    simp only [VulkanRenderer.create_swapchain_image_count, hmax]
    exact Nat.mod_eq_of_lt h
  · intro m hmax
    simp only [VulkanRenderer.create_swapchain_image_count, hmax]
    rw [Nat.mod_eq_of_lt h]

/-- C4 witness: min 2 with no bound gives 3 images; min 2 bounded by 2
gives 2. -/
theorem create_swapchain_image_count_spec_witness :
    VulkanRenderer.create_swapchain_image_count ⟨2, none, [], pm_none⟩ = 2 + 1 ∧
    VulkanRenderer.create_swapchain_image_count ⟨2, some 2, [], pm_none⟩ =
      Nat.min (2 + 1) 2 :=
  ⟨(create_swapchain_image_count_spec ⟨2, none, [], pm_none⟩ (by decide)).1 rfl,
   (create_swapchain_image_count_spec ⟨2, some 2, [], pm_none⟩ (by decide)).2 2 rfl⟩

/-- C6 counterexample: when the surface supports no present mode at all,
the chooser still returns Fifo, which is not a member of the supported
set. -/
theorem chosen_present_mode_not_member_cex :
    VulkanRenderer.choose_best_presentation_mode pm_none = PresentMode.Fifo ∧
    pm_none.supports (VulkanRenderer.choose_best_presentation_mode pm_none) = false := by
  decide

/-- C6 (amended): provided the surface reports at least one format and
its present-mode set contains fifo or mailbox (both guaranteed by the
Vulkan specification), the chosen format/color-space pair is a member of
the supported format list and the chosen present mode is in the supported
present-mode set. -/
theorem chosen_format_and_mode_member (caps : Capabilities)
    (h1 : caps.supported_formats ≠ [])
    (h2 : caps.present_modes.fifo = true ∨ caps.present_modes.mailbox = true) :
    (∃ f, VulkanRenderer.choose_best_surface_format caps.supported_formats = some f ∧
      f ∈ caps.supported_formats) ∧
    caps.present_modes.supports
      (VulkanRenderer.choose_best_presentation_mode caps.present_modes) = true := by
  constructor
  · cases hf : caps.supported_formats.find? VulkanRenderer.is_best_surface_format with
    | some f =>
      exact ⟨f, choose_best_surface_format_of_find hf, List.mem_of_find?_eq_some hf⟩
    | none =>
      rw [choose_best_surface_format_of_none hf]
      cases hl : caps.supported_formats with
      | nil => exact absurd hl h1
      | cons a t => exact ⟨a, rfl, List.mem_cons_self a t⟩
  · by_cases hm : caps.present_modes.mailbox = true
    · simp [VulkanRenderer.choose_best_presentation_mode, hm,
        SupportedPresentModes.supports]
    · have hfifo : caps.present_modes.fifo = true := by
        cases h2 with
        | inl h => exact h
        | inr h => exact absurd h hm
      simp [VulkanRenderer.choose_best_presentation_mode, hm,
        SupportedPresentModes.supports, hfifo]

/-- C6 witness: with one supported format and only fifo supported, the
chosen format is that format (a member) and the chosen mode Fifo is
supported. -/
theorem chosen_format_and_mode_member_witness :
    (∃ f, VulkanRenderer.choose_best_surface_format caps_fifo.supported_formats = some f ∧
      f ∈ caps_fifo.supported_formats) ∧
    caps_fifo.present_modes.supports
      (VulkanRenderer.choose_best_presentation_mode caps_fifo.present_modes) = true :=
  chosen_format_and_mode_member caps_fifo (by decide) (Or.inl rfl)

/-- C9: every error from a fallible initialization step propagates
unchanged — inside `VulkanRenderer::init` each failing step's error is
returned as is (earlier steps having succeeded), and in `main` the error
from instance creation or renderer initialization is printed to standard
error and the process exits with code 1; when both steps succeed nothing
is printed, the close-request event exits the event loop, and the exit
code is 0. -/
theorem main_error_propagation_spec :
    (∀ e r, mainOutcome (Except.error e) r =
      ⟨1, ["Failed to create instance: " ++ e.display]⟩) ∧
    (∀ e, mainOutcome (Except.ok ()) (Except.error e) =
      ⟨1, ["Failed to create vulkano renderer: " ++ e.display]⟩) ∧
    (mainOutcome (Except.ok ()) (Except.ok ()) = ⟨0, []⟩) ∧
    (∀ cf, main_event_handler WinEvent.closeRequested cf = ControlFlow.exitLoop) ∧
    (∀ steps e, steps.instance_step = Except.error e →
      VulkanRenderer.init steps = Except.error e) ∧
    (∀ steps e, steps.instance_step = Except.ok () →
      steps.surface_step = Except.error e →
      VulkanRenderer.init steps = Except.error e) ∧
    (∀ steps e, steps.instance_step = Except.ok () →
      steps.surface_step = Except.ok () →
      steps.physical_device_step = Except.error e →
      VulkanRenderer.init steps = Except.error e) ∧
    (∀ steps e, steps.instance_step = Except.ok () →
      steps.surface_step = Except.ok () →
      steps.physical_device_step = Except.ok () →
      steps.logical_device_step = Except.error e →
      VulkanRenderer.init steps = Except.error e) ∧
    (∀ steps e, steps.instance_step = Except.ok () →
      steps.surface_step = Except.ok () →
      steps.physical_device_step = Except.ok () →
      steps.logical_device_step = Except.ok () →
      steps.swapchain_step = Except.error e →
      VulkanRenderer.init steps = Except.error e) ∧
    (∀ steps, steps.instance_step = Except.ok () →
      steps.surface_step = Except.ok () →
      steps.physical_device_step = Except.ok () →
      steps.logical_device_step = Except.ok () →
      steps.swapchain_step = Except.ok () →
      VulkanRenderer.init steps = steps.pipeline_step) := by
  refine ⟨fun e r => rfl, fun e => rfl, rfl, fun cf => rfl, ?_, ?_, ?_, ?_, ?_, ?_⟩
  · intro steps e h1
    simp [VulkanRenderer.init, h1]
  · intro steps e h1 h2
    simp [VulkanRenderer.init, h1, h2]
  · intro steps e h1 h2 h3
    simp [VulkanRenderer.init, h1, h2, h3]
  · intro steps e h1 h2 h3 h4
    simp [VulkanRenderer.init, h1, h2, h3, h4]
  · intro steps e h1 h2 h3 h4 h5
    simp [VulkanRenderer.init, h1, h2, h3, h4, h5]
  · intro steps h1 h2 h3 h4 h5
    simp [VulkanRenderer.init, h1, h2, h3, h4, h5]

/-- C9 witness: a concrete failing instance creation is printed to
standard error with exit code 1; a concrete failing surface step inside
init propagates that very error; all-success gives exit code 0. -/
theorem main_error_propagation_spec_witness :
    mainOutcome (Except.error (EngineError.VulkanOomError OomError.OutOfHostMemory))
        (Except.ok ()) =
      ⟨1, ["Failed to create instance: " ++
        (EngineError.VulkanOomError OomError.OutOfHostMemory).display]⟩ ∧
    VulkanRenderer.init
        ⟨Except.ok (), Except.error (EngineError.VulkanCreationError
          CreationError.SurfaceCreationError), Except.ok (), Except.ok (),
          Except.ok (), Except.ok ()⟩ =
      Except.error (EngineError.VulkanCreationError
        CreationError.SurfaceCreationError) ∧
    mainOutcome (Except.ok ()) (Except.ok ()) = ⟨0, []⟩ :=
  ⟨main_error_propagation_spec.1 _ _,
   main_error_propagation_spec.2.2.2.2.2.1 _ _ rfl rfl,
   main_error_propagation_spec.2.2.1⟩

end Vk
